import Mathlib

/-!
Verification of the DotA2 Random Hero Selector engine
(`random_hero_select.py`, class `RandomHeroSelectManager`).

The embedding models JSON documents as association lists (Python dicts
preserve insertion order), machine reals of the probability engine as `ℝ`,
and each mutating method of the manager as a function
`State → Inputs → State × Option PyError`: the returned state is the state
of the Python object when the method returns or when an uncaught exception
escapes it (so partial field mutations made before a raise are visible),
and the second component is the escaping exception, if any.
-/

namespace RandomHeroSelect

/-- Attribute values occurring in the JSON documents: scalars (strings or
numbers) or lists of tags.  JSON numbers are modelled as rationals. -/
inductive Value where
  | str : String → Value
  | num : ℚ → Value
  | tags : List String → Value
deriving DecidableEq, Repr

/-- One JSON object (one hero record): an insertion-ordered mapping from
field name to value, as Python dicts are ordered. -/
abbrev Row := List (String × Value)

/-- A parsed top-level JSON document / the hero table: identifier to record. -/
abbrev Catalog := List (String × Row)

/-- Exceptions the Python code can raise, plus the spec's error vocabulary.
`jsonDecodeError` is `json.JSONDecodeError` (its `msg` field is carried),
`typeError` and `valueError` are the builtin Python exceptions.
`emptySubsetError` is the error name used by the specification; no such
error type exists anywhere in the source, the constructor is present only
so that statements about it can be written down. -/
inductive PyError where
  | jsonDecodeError : String → PyError
  | typeError : String → PyError
  | valueError : String → PyError
  | emptySubsetError : PyError
deriving DecidableEq, Repr

/-- Result of `json.load` on one input file: either a parse failure
(`JSONDecodeError` raised by the loader) or the parsed document. -/
inductive Source where
  | malformed : Source
  | parsed : Catalog → Source

/-- Message of the `JSONDecodeError` re-raised when the configuration
(attributes) file does not parse (`generate_hero_dataframe`, line 436). -/
def configDecodeMsg : String :=
  "The configuration file provided could not be decoded. The file may be corrupted, or improperly formatted."

/-- Message of the `JSONDecodeError` re-raised when the preferences file
does not parse (`generate_hero_dataframe`, line 442). -/
def prefsDecodeMsg : String :=
  "The preferences file provided could not be decoded. The file may be corrupted, or improperly formatted."

/-- Message of the `TypeError` raised by `dict.update(None)` when a
preferences identifier is absent from the attributes document
(`pref_dict[key].update(hero_dict.get(key))` with `hero_dict.get(key)`
returning `None`, line 445). -/
def updateNoneMsg : String := "'NoneType' object is not iterable"

/-- Message of the `ValueError` raised by `np.amax` on a zero-size array
(inside `scipy.special.softmax`). -/
def amaxEmptyMsg : String :=
  "zero-size array to reduction operation maximum which has no identity"

/-- Python `a.update(b)` on dicts: keys already in `a` keep their position
and take `b`'s value; keys of `b` not in `a` are appended in `b`'s order. -/
def Row.updateWith (a b : Row) : Row :=
  (a.map fun kv =>
    match b.lookup kv.1 with
    | some v => (kv.1, v)
    | none => kv) ++
  b.filter fun kv => (a.lookup kv.1).isNone

/-- The merge loop of `generate_hero_dataframe` (lines 444-445):
`for key in pref_dict.keys(): pref_dict[key].update(hero_dict.get(key))`.
Iterates over the preferences document in order; for an identifier absent
from the attributes document, `hero_dict.get(key)` is `None` and
`dict.update(None)` raises `TypeError` (the loop stops at the first such
identifier, and the partially updated local dict is never observable). -/
def mergeRows (hero_dict : Catalog) : Catalog → Except PyError Catalog
  | [] => .ok []
  | kv :: rest =>
    match hero_dict.lookup kv.1 with
    | none => .error (.typeError updateNoneMsg)
    | some hrow =>
      match mergeRows hero_dict rest with
      | .error e => .error e
      | .ok cat => .ok ((kv.1, Row.updateWith kv.2 hrow) :: cat)

/-- Embedding of `RandomHeroSelectManager.generate_hero_dataframe`
(lines 431-451).  The two files are read as `Source` values (the
configuration / attributes file first, then the preferences file), a parse
failure re-raises a `JSONDecodeError` with the corresponding message, and
the parsed documents are merged by `mergeRows`.  The final
`pd.DataFrame.from_dict(pref_dict, orient='index')` keeps the merged rows
keyed and ordered by the preferences document's identifiers; the catalog is
modelled as that association list (pandas' alignment of heterogeneous
columns by NaN-filling is not modelled). -/
def generate_hero_dataframe (configSource prefSource : Source) :
    Except PyError Catalog :=
  match configSource with
  | .malformed => .error (.jsonDecodeError configDecodeMsg)
  | .parsed hero_dict =>
    match prefSource with
    | .malformed => .error (.jsonDecodeError prefsDecodeMsg)
    | .parsed pref_dict => mergeRows hero_dict pref_dict

/-! The filter/mask engine. -/

/-- Embedding of `RandomHeroSelectManager.generate_mask` (lines 124-157).
The column's values are read off the hero table row by row; the code
branches on `isinstance(values[0], list)`: for a tag-list column a row is
kept when any of its tags is among the desired values
(`np.any(np.isin(values, desired_values))`), otherwise membership of the
scalar value in the desired values is tested (`np.in1d`).  Desired values
are checkbox labels, i.e. strings; a scalar numeric value never equals a
string label, matching `np.in1d` across types.  Column access on a name
missing from the table raises in pandas; the GUI only passes axis names
taken from the filter configuration, and such calls are not modelled. -/
def generate_mask (cat : Catalog) (column_to_check : String)
    (desired_values : List String) : List Bool :=
  let values := cat.map fun kr => kr.2.lookup column_to_check
  match values.head? with
  | some (some (Value.tags _)) =>
    values.map fun v =>
      match v with
      | some (Value.tags vs) => vs.any fun x => desired_values.contains x
      | _ => false
  | _ =>
    values.map fun v =>
      match v with
      | some (Value.str s) => desired_values.contains s
      | _ => false

/-- Embedding of `RandomHeroSelectManager.generate_combined_mask`
(lines 159-199): `None` handling for absent masks, otherwise the numpy
element-wise `mask_1 & mask_2`. -/
def generate_combined_mask (mask_1 mask_2 : Option (List Bool)) :
    Option (List Bool) :=
  match mask_1, mask_2 with
  | none, none => none
  | none, some m => some m
  | some m, none => some m
  | some a, some b => some (List.zipWith (fun x y => x && y) a b)

/-- One filter axis of the GUI: the checkbox labels of a
`random_hero_select_gui.Checkbar` and which of them are toggled. -/
structure Checkbar where
  labels : List String
  toggled : List Bool

/-- Embedding of `Checkbar.fetch_selected_labels`:
`[label for (label, v) in zip(self.labels, self.state()) if v]`. -/
def Checkbar.fetch_selected_labels (c : Checkbar) : List String :=
  (c.labels.zip c.toggled).filterMap fun p => if p.2 then some p.1 else none

/-- One iteration of the loop of `callback_generate_masks` (lines 222-228):
take the selected labels (all labels when none are selected) and AND the
axis's mask into the running mask.  Both arguments to
`generate_combined_mask` are present here, so the `Option.getD` default is
unreachable. -/
def combineStep (cat : Catalog) (m : List Bool) (kv : String × Checkbar) :
    List Bool :=
  let checkbox_values :=
    if kv.2.fetch_selected_labels.isEmpty then kv.2.labels
    else kv.2.fetch_selected_labels
  (generate_combined_mask (some m)
    (some (generate_mask cat kv.1 checkbox_values))).getD m

/-- Boolean-mask row selection `self.hero_dataframe[self.mask]`. -/
def applyMask (cat : Catalog) (mask : List Bool) : Catalog :=
  (cat.zip mask).filterMap fun p => if p.2 then some p.1 else none

/-! The probability engine. -/

/-- Numeric preference score of one hero record (the `preference` column).
Every record of a loaded catalog carries a numeric preference (spec §3
invariant); a missing or non-numeric entry would surface as NaN in pandas
and is outside this embedding. -/
def preferenceValue (r : Row) : ℚ :=
  match r.lookup "preference" with
  | some (Value.num q) => q
  | _ => 0

/-- Running maximum `np.amax` over a list; only ever applied to non-empty
input (on a zero-size array numpy raises instead, see
`generate_probability_list`). -/
noncomputable def amax : List ℝ → ℝ
  | [] => 0
  | x :: xs => xs.foldl max x

/-- Embedding of `scipy.special.softmax` on a 1-D array:
`exp_x_shifted = np.exp(x - np.amax(x)); exp_x_shifted / np.sum(exp_x_shifted)`,
over real arithmetic. -/
noncomputable def softmax (l : List ℝ) : List ℝ :=
  let exp_x_shifted := l.map fun x => Real.exp (x - amax l)
  exp_x_shifted.map fun y => y / exp_x_shifted.sum

/-- Embedding of `RandomHeroSelectManager.generate_probability_list`
(lines 375-397) as a function of the filtered hero table it reads:
`softmax(self.filtered_dataframe['preference'].values)`.  On a zero-row
table the preference array is zero-size and `np.amax` inside
`scipy.special.softmax` raises `ValueError`. -/
noncomputable def generate_probability_list (filtered : Catalog) :
    Except PyError (List ℝ) :=
  let preference_list : List ℚ := filtered.map fun kr => preferenceValue kr.2
  if preference_list.isEmpty then
    .error (.valueError amaxEmptyMsg)
  else
    .ok (softmax (preference_list.map fun (q : ℚ) => (q : ℝ)))

/-! The session state and its callbacks. -/

/-- The mutable fields of `RandomHeroSelectManager` that the selection
engine uses (file locations, GUI configuration and the image cache are
presentation-side and not modelled; the preference source is passed to the
reload callback by value). -/
structure Manager where
  hero_dataframe : Catalog
  mask : List Bool
  filtered_dataframe : Catalog
  hero_probabilities : List ℝ

/-- Embedding of `RandomHeroSelectManager.reset_filtered_hero_dataframe`
(lines 280-298): `self.mask` is set to all-`True` of the catalog's length
and `self.filtered_dataframe` to the full catalog, then the probabilities
are recomputed on the new filtered table (= the full catalog).  The
recomputation raises out of the method when the catalog has zero rows;
the first two assignments have already happened by then, so both match
branches carry them. -/
noncomputable def reset_filtered_hero_dataframe (st : Manager) :
    Manager × Option PyError :=
  match generate_probability_list st.hero_dataframe with
  | .error e =>
    ({ st with mask := List.replicate st.hero_dataframe.length true,
               filtered_dataframe := st.hero_dataframe }, some e)
  | .ok p =>
    ({ st with mask := List.replicate st.hero_dataframe.length true,
               filtered_dataframe := st.hero_dataframe,
               hero_probabilities := p }, none)

/-- Embedding of `RandomHeroSelectManager.generate_filtered_hero_dataframe`
(lines 261-278): `self.filtered_dataframe = self.hero_dataframe[self.mask]`
followed by recomputing the probabilities on the new filtered table; as in
the reset, a raise in the recomputation leaves the already-assigned
filtered table behind. -/
noncomputable def generate_filtered_hero_dataframe (st : Manager) :
    Manager × Option PyError :=
  match generate_probability_list (applyMask st.hero_dataframe st.mask) with
  | .error e =>
    ({ st with filtered_dataframe := applyMask st.hero_dataframe st.mask }, some e)
  | .ok p =>
    ({ st with filtered_dataframe := applyMask st.hero_dataframe st.mask,
               hero_probabilities := p }, none)

/-- Embedding of `RandomHeroSelectManager.callback_clear_masks`
(lines 238-259): every checkbox of every axis is cleared (GUI state, not
part of the manager), then the filtered table is reset. -/
noncomputable def callback_clear_masks (st : Manager) : Manager × Option PyError :=
  reset_filtered_hero_dataframe st

/-- The zero-match branch of `callback_generate_masks` (lines 230-234):
`self.reset_filtered_hero_dataframe()`, then
`self.callback_clear_masks(checkbox_dict)` (skipped when the first reset
raises), then `return` with no error and no notification (the `TODO` at
line 231 marks the absent user notification). -/
noncomputable def zero_match_reset (st : Manager) : Manager × Option PyError :=
  match reset_filtered_hero_dataframe st with
  | (st3, some e) => (st3, some e)
  | (st3, none) => callback_clear_masks st3

/-- Embedding of `RandomHeroSelectManager.callback_generate_masks`
(lines 201-236).  The method first calls
`self.filtered_dataframe = self.reset_filtered_hero_dataframe()`; the
reset's `None` return value sits in `filtered_dataframe` only transiently
(every path below overwrites it before returning) and is not represented.
Then each axis's mask is AND-combined into `self.mask`.  If the combined
mask has no `True` entry the method takes the zero-match branch above;
otherwise the filtered table and probabilities are regenerated. -/
noncomputable def callback_generate_masks (st : Manager)
    (checkbox_dict : List (String × Checkbar)) : Manager × Option PyError :=
  match reset_filtered_hero_dataframe st with
  | (st1, some e) => (st1, some e)
  | (st1, none) =>
    if ((checkbox_dict.foldl (combineStep st1.hero_dataframe) st1.mask).any
        fun b => b) then
      generate_filtered_hero_dataframe
        { st1 with mask := checkbox_dict.foldl (combineStep st1.hero_dataframe) st1.mask }
    else
      zero_match_reset
        { st1 with mask := checkbox_dict.foldl (combineStep st1.hero_dataframe) st1.mask }

/-- Embedding of `RandomHeroSelectManager.callback_open_new_preference_list`
(lines 87-122).  `generate_hero_dataframe` is evaluated on the new
preferences source together with the stored configuration source; a
`JSONDecodeError` escaping it is re-raised with identical fields before
any field of `self` is assigned, so the prior state is returned unchanged.
On success `self.hero_dataframe` is replaced (and the stored preference
location updated, not modelled) and the mask, filtered table and
probabilities are reset to the new pool. -/
noncomputable def callback_open_new_preference_list (st : Manager)
    (configSource prefSource : Source) : Manager × Option PyError :=
  match generate_hero_dataframe configSource prefSource with
  | .error e => (st, some e)
  | .ok df => reset_filtered_hero_dataframe { st with hero_dataframe := df }

/-! Concrete inputs and claim-side definitions used by the claim theorems. -/

/-- The mask `callback_generate_masks` leaves in `self.mask`, as a function
of the catalog and the current selections only: the running mask restarts
from all-`True` (the leading reset), every axis is AND-combined in, and a
combined mask with no `True` entry is replaced by the all-`True` mask
(the zero-match reset). -/
def maskResult (cat : Catalog) (checkbox_dict : List (String × Checkbar)) : List Bool :=
  let m := checkbox_dict.foldl (combineStep cat) (List.replicate cat.length true)
  if m.any (fun b => b) then m else List.replicate cat.length true

/-- The table `callback_generate_masks` leaves in `self.filtered_dataframe`,
as a function of the catalog and the current selections only. -/
def filteredResult (cat : Catalog) (checkbox_dict : List (String × Checkbar)) : Catalog :=
  let m := checkbox_dict.foldl (combineStep cat) (List.replicate cat.length true)
  if m.any (fun b => b) then applyMask cat m else cat

/-- Catalog for the C1 failing input: one strength hero. -/
def C1cat : Catalog :=
  [("axe", [("primary_attribute", Value.str "strength"), ("preference", Value.num 1)])]

/-- Selections for the C1 failing input: only `agility` is checked, so the
combined mask selects zero heroes. -/
def C1sel : List (String × Checkbar) :=
  [("primary_attribute", { labels := ["strength", "agility"], toggled := [false, true] })]

/-- Session state for the C1 failing input. -/
def C1st : Manager :=
  { hero_dataframe := C1cat, mask := [true], filtered_dataframe := C1cat,
    hero_probabilities := [] }

/-- Two-hero subset with distinct preference scores, used to witness the
probability-engine claims. -/
def W6cat : Catalog :=
  [("axe", [("preference", Value.num 1)]), ("bane", [("preference", Value.num 0)])]


/-- Merge of one entity as claim C3 words it: the attributes document's
record updated per-field by the preferences document's record. -/
def specMergeRowC3 (attrsRow prefRow : Row) : Row := Row.updateWith attrsRow prefRow

/-- Attributes document of the C3 counterexample. -/
def C3attrs : Catalog := [("axe", [("primary_stat", Value.str "strength")])]

/-- Preferences document of the C3 counterexample: it overrides a field
that the attributes document also carries. -/
def C3prefs : Catalog :=
  [("axe", [("primary_stat", Value.str "agility"), ("preference", Value.num 3)])]


/-! Lemmas about `List.lookup` over the merge combinators. -/

theorem lookup_append (l1 l2 : List (String × Value)) (k : String) :
    (l1 ++ l2).lookup k =
      match l1.lookup k with
      | some v => some v
      | none => l2.lookup k := by
  induction l1 with
  | nil => simp [List.lookup]
  | cons kv rest ih =>
    rcases kv with ⟨k0, v0⟩
    by_cases h : k = k0
    · simp [List.lookup, h]
    · simpa [List.lookup, beq_false_of_ne h] using ih

theorem lookup_map_overwrite (a b : Row) (f : String) :
    ((a.map fun kv =>
        match b.lookup kv.1 with
        | some v => (kv.1, v)
        | none => kv).lookup f) =
      match a.lookup f with
      | some va =>
        some (match b.lookup f with
              | some vb => vb
              | none => va)
      | none => none := by
  induction a with
  | nil => simp [List.lookup]
  | cons kv rest ih =>
    rcases kv with ⟨k0, v0⟩
    by_cases h : f = k0
    · subst h
      rcases hb : b.lookup f with _ | vb <;>
        simp [List.lookup, hb]
    · rcases hb : b.lookup k0 with _ | vb <;>
        simpa [List.lookup, hb, beq_false_of_ne h] using ih

theorem lookup_filter_isNone (a b : Row) (f : String) :
    ((b.filter fun kv => (a.lookup kv.1).isNone).lookup f) =
      match a.lookup f with
      | some _ => none
      | none => b.lookup f := by
  induction b with
  | nil => cases a.lookup f <;> simp [List.lookup]
  | cons kv rest ih =>
    rcases kv with ⟨k0, v0⟩
    by_cases h : f = k0
    · subst h
      rcases ha : a.lookup f with _ | va <;>
        simp [List.filter, List.lookup, ha, ih]
    · rcases ha : a.lookup k0 with _ | va <;>
        rcases ha2 : a.lookup f with _ | va2 <;>
        simp [List.filter, List.lookup, ha, ha2, beq_false_of_ne h, ih]

/-- Field-level description of Python `a.update(b)`: a field present in `b`
takes `b`'s value, a field absent from `b` keeps `a`'s value. -/
theorem lookup_updateWith (a b : Row) (f : String) :
    (Row.updateWith a b).lookup f =
      match b.lookup f with
      | some v => some v
      | none => a.lookup f := by
  unfold Row.updateWith
  rw [lookup_append, lookup_map_overwrite, lookup_filter_isNone]
  rcases ha : a.lookup f with _ | va <;> rcases hb : b.lookup f with _ | vb <;> simp

/-- When every preferences identifier is known to the attributes document,
the merge loop succeeds and produces, in order, each preferences record
updated by the corresponding attributes record. -/
theorem mergeRows_eq (hero_dict : Catalog) :
    ∀ pref_dict : Catalog,
      (∀ kv ∈ pref_dict, (hero_dict.lookup kv.1).isSome = true) →
      mergeRows hero_dict pref_dict =
        .ok (pref_dict.map fun kv =>
          (kv.1, Row.updateWith kv.2 ((hero_dict.lookup kv.1).getD []))) := by
  intro pref_dict
  induction pref_dict with
  | nil => intro _; rfl
  | cons kv rest ih =>
    intro hall
    have hk : (hero_dict.lookup kv.1).isSome = true := hall kv (by simp)
    rcases hh : hero_dict.lookup kv.1 with _ | hrow
    · rw [hh] at hk; simp at hk
    · have hrest := ih fun kv2 h2 => hall kv2 (by simp [h2])
      simp [mergeRows, hh, hrest]

/-- Lookup in a key-preserving map of an association list. -/
theorem lookup_map_keyed (g : String → Row → Row) (k : String) :
    ∀ l : Catalog,
      ((l.map fun kv => (kv.1, g kv.1 kv.2)).lookup k) =
        (l.lookup k).map (g k) := by
  intro l
  induction l with
  | nil => simp [List.lookup]
  | cons kv rest ih =>
    by_cases h : k = kv.1
    · simp [List.lookup, h]
    · simpa [List.lookup, beq_false_of_ne h] using ih

/-! Claims about the loader (C3, C4, C10). -/

/-- C3 is false as stated: the code runs
`pref_dict[key].update(hero_dict.get(key))`, so the attributes record
updates the preferences record — on the field `primary_stat`, present in
both documents, the loaded entity keeps the attributes document's value
`strength`, while the claim's merge (attributes updated by preferences)
would give the preferences document's value `agility`. -/
theorem C3_merge_direction_counterexample :
    ∃ cat, generate_hero_dataframe (.parsed C3attrs) (.parsed C3prefs) = .ok cat ∧
      cat.lookup "axe" ≠
        some (specMergeRowC3 [("primary_stat", Value.str "strength")]
          [("primary_stat", Value.str "agility"), ("preference", Value.num 3)]) :=
  ⟨[("axe", [("primary_stat", Value.str "strength"), ("preference", Value.num 3)])],
    by rfl, by decide⟩

/-- C3 amended: for every identifier present in the preferences document
and known to the attributes document, the load produces an entity whose
attribute map is the preferences record updated per-field by the
attributes record — fields present in the attributes document overwrite,
fields absent from the attributes document are left untouched (and, per
C10, only preferences identifiers produce entities at all, with every
preferences identifier required to be known to the attributes document
for the load to succeed). -/
theorem C3_amended_merge_attrs_overwrite (hero_dict pref_dict : Catalog)
    (k : String) (prow hrow : Row)
    (hp : pref_dict.lookup k = some prow)
    (hh : hero_dict.lookup k = some hrow)
    (hall : ∀ kv ∈ pref_dict, (hero_dict.lookup kv.1).isSome = true) :
    ∃ cat, generate_hero_dataframe (.parsed hero_dict) (.parsed pref_dict) = .ok cat ∧
      cat.lookup k = some (Row.updateWith prow hrow) ∧
      (∀ f v, hrow.lookup f = some v → (Row.updateWith prow hrow).lookup f = some v) ∧
      (∀ f, hrow.lookup f = none → (Row.updateWith prow hrow).lookup f = prow.lookup f) := by
  refine ⟨pref_dict.map fun kv =>
    (kv.1, Row.updateWith kv.2 ((hero_dict.lookup kv.1).getD [])), ?_, ?_, ?_, ?_⟩
  · simpa [generate_hero_dataframe] using mergeRows_eq hero_dict pref_dict hall
  · rw [lookup_map_keyed (fun k2 v => Row.updateWith v ((hero_dict.lookup k2).getD [])) k
      pref_dict, hp]
    simp [hh]
  · intro f v hv
    rw [lookup_updateWith, hv]
  · intro f hv
    rw [lookup_updateWith, hv]

/-- Witness for the amended C3 at the spec's own merge example enriched
with an overridable field. -/
theorem C3_amended_witness :
    ∃ cat,
      generate_hero_dataframe
        (.parsed [("axe", [("primary_stat", Value.str "strength"),
                           ("attack_type", Value.str "melee")])])
        (.parsed [("axe", [("preference", Value.num 3)])]) = .ok cat ∧
      cat.lookup "axe" =
        some (Row.updateWith [("preference", Value.num 3)]
          [("primary_stat", Value.str "strength"), ("attack_type", Value.str "melee")]) := by
  obtain ⟨cat, h1, h2, _, _⟩ :=
    C3_amended_merge_attrs_overwrite
      [("axe", [("primary_stat", Value.str "strength"),
                ("attack_type", Value.str "melee")])]
      [("axe", [("preference", Value.num 3)])]
      "axe" [("preference", Value.num 3)]
      [("primary_stat", Value.str "strength"), ("attack_type", Value.str "melee")]
      (by decide) (by decide) (by decide)
  exact ⟨cat, h1, h2⟩

/-- C4: an identifier present only in the preferences document is not
ignored — `pref_dict[key].update(hero_dict.get(key))` calls
`dict.update(None)` and the load dies with an uncaught `TypeError`
instead of succeeding (the claim states the intended behavior; the
docstring's Raises section lists only `JSONDecodeError`). -/
theorem C4_prefs_only_identifier_raises_typeerror :
    generate_hero_dataframe
      (.parsed [("axe", [("primary_stat", Value.str "strength")])])
      (.parsed [("crystal_maiden", [("preference", Value.num 2)])]) =
      .error (.typeError updateNoneMsg) := by rfl

/-- C10: when every preferences identifier is known to the attributes
document the load succeeds and the catalog's identifiers are exactly the
preferences document's identifiers, in order; an identifier absent from
the preferences document — even one present in the attributes document —
appears nowhere in the catalog and gets no defaulted preference score. -/
theorem C10_catalog_identifiers_from_prefs (hero_dict pref_dict : Catalog)
    (hall : ∀ kv ∈ pref_dict, (hero_dict.lookup kv.1).isSome = true) :
    ∃ cat, generate_hero_dataframe (.parsed hero_dict) (.parsed pref_dict) = .ok cat ∧
      cat.map Prod.fst = pref_dict.map Prod.fst ∧
      ∀ k, pref_dict.lookup k = none → cat.lookup k = none := by
  refine ⟨pref_dict.map fun kv =>
    (kv.1, Row.updateWith kv.2 ((hero_dict.lookup kv.1).getD [])), ?_, ?_, ?_⟩
  · simpa [generate_hero_dataframe] using mergeRows_eq hero_dict pref_dict hall
  · rw [List.map_map]
    rfl
  · intro k hk
    rw [lookup_map_keyed (fun k2 v => Row.updateWith v ((hero_dict.lookup k2).getD [])) k
      pref_dict, hk]
    rfl

/-- Witness for C10: the attributes-only identifier `bane` is dropped. -/
theorem C10_witness :
    ∃ cat,
      generate_hero_dataframe
        (.parsed [("axe", [("primary_stat", Value.str "strength")]),
                  ("bane", [("primary_stat", Value.str "intelligence")])])
        (.parsed [("axe", [("preference", Value.num 1)])]) = .ok cat ∧
      cat.map Prod.fst = ["axe"] ∧ cat.lookup "bane" = none := by
  obtain ⟨cat, h1, h2, h3⟩ :=
    C10_catalog_identifiers_from_prefs
      [("axe", [("primary_stat", Value.str "strength")]),
       ("bane", [("primary_stat", Value.str "intelligence")])]
      [("axe", [("preference", Value.num 1)])]
      (by decide)
  exact ⟨cat, h1, by simpa using h2, h3 "bane" (by decide)⟩

/-! Claims about the filter/mask engine and the filter callback
(C5, C1, C9) and about reload atomicity (C2). -/

/-- C5: `generate_combined_mask` is logical AND with the absent mask
(`None`) as identity element: combining with `None` yields the other
argument unchanged (in particular `None` with `None` yields `None`), and
combining two present masks of equal length yields their element-wise
logical AND. -/
theorem C5_combine_is_AND_with_noMask_identity :
    (∀ m : Option (List Bool), generate_combined_mask none m = m) ∧
    (∀ m : Option (List Bool), generate_combined_mask m none = m) ∧
    generate_combined_mask none none = none ∧
    (∀ a b : List Bool, a.length = b.length →
      ∃ c, generate_combined_mask (some a) (some b) = some c ∧
        c.length = a.length ∧
        ∀ i (hia : i < a.length) (hib : i < b.length) (hic : i < c.length),
          c.get ⟨i, hic⟩ = (a.get ⟨i, hia⟩ && b.get ⟨i, hib⟩)) := by
  refine ⟨fun m => by cases m <;> rfl, fun m => by cases m <;> rfl, rfl, ?_⟩
  intro a b hab
  refine ⟨List.zipWith (fun x y => x && y) a b, rfl, ?_, ?_⟩
  · rw [List.length_zipWith, hab, Nat.min_self]
  · intro i hia hib hic
    simp [List.getElem_zipWith]

/-- Witness for C5 at concrete masks. -/
theorem C5_witness :
    generate_combined_mask none (some [true]) = some [true] ∧
    ∃ c, generate_combined_mask (some [true, false]) (some [true, true]) = some c ∧
      c.length = 2 := by
  obtain ⟨c, hc, hl, _⟩ :=
    C5_combine_is_AND_with_noMask_identity.2.2.2 [true, false] [true, true] (by decide)
  exact ⟨C5_combine_is_AND_with_noMask_identity.1 (some [true]), c, hc, hl.trans rfl⟩

/-! Behavior of the filter callback. -/

theorem gpl_nil : generate_probability_list [] = .error (.valueError amaxEmptyMsg) := rfl

theorem gpl_cons (kv : String × Row) (rest : Catalog) :
    generate_probability_list (kv :: rest) =
      .ok (softmax (((kv :: rest).map fun kr => preferenceValue kr.2).map
        fun (q : ℚ) => (q : ℝ))) := rfl

theorem combineStep_nil_cat (m : List Bool) (kv : String × Checkbar) :
    combineStep [] m kv = [] := by
  simp [combineStep, generate_combined_mask, generate_mask]

theorem foldl_combineStep_nil (sel : List (String × Checkbar)) :
    sel.foldl (combineStep []) ([] : List Bool) = [] := by
  induction sel with
  | nil => rfl
  | cons kv rest ih => simpa [combineStep_nil_cat] using ih

theorem maskResult_nil (sel : List (String × Checkbar)) : maskResult [] sel = [] := by
  unfold maskResult
  rw [show List.replicate ([] : Catalog).length true = [] from rfl,
    foldl_combineStep_nil]
  rfl

theorem filteredResult_nil (sel : List (String × Checkbar)) :
    filteredResult [] sel = [] := by
  unfold filteredResult
  rw [show List.replicate ([] : Catalog).length true = [] from rfl,
    foldl_combineStep_nil]
  rfl

theorem maskResult_of_any (cat : Catalog) (sel : List (String × Checkbar))
    (h : ((sel.foldl (combineStep cat) (List.replicate cat.length true)).any
      fun b => b) = true) :
    maskResult cat sel = sel.foldl (combineStep cat) (List.replicate cat.length true) := by
  unfold maskResult
  rw [if_pos h]

theorem maskResult_of_not_any (cat : Catalog) (sel : List (String × Checkbar))
    (h : ¬ ((sel.foldl (combineStep cat) (List.replicate cat.length true)).any
      fun b => b) = true) :
    maskResult cat sel = List.replicate cat.length true := by
  unfold maskResult
  rw [if_neg h]

theorem filteredResult_of_any (cat : Catalog) (sel : List (String × Checkbar))
    (h : ((sel.foldl (combineStep cat) (List.replicate cat.length true)).any
      fun b => b) = true) :
    filteredResult cat sel =
      applyMask cat (sel.foldl (combineStep cat) (List.replicate cat.length true)) := by
  unfold filteredResult
  rw [if_pos h]

theorem filteredResult_of_not_any (cat : Catalog) (sel : List (String × Checkbar))
    (h : ¬ ((sel.foldl (combineStep cat) (List.replicate cat.length true)).any
      fun b => b) = true) :
    filteredResult cat sel = cat := by
  unfold filteredResult
  rw [if_neg h]

/-- Possible outcomes of the reset: on a zero-row catalog the probability
recomputation raises `ValueError` after the mask and filtered table were
already reassigned; otherwise the reset returns the all-eligible state. -/
theorem reset_cases (st : Manager) :
    (st.hero_dataframe = [] ∧
      reset_filtered_hero_dataframe st =
        ({ st with mask := [], filtered_dataframe := [] },
          some (.valueError amaxEmptyMsg))) ∨
    (st.hero_dataframe ≠ [] ∧ ∃ p,
      reset_filtered_hero_dataframe st =
        ({ st with mask := List.replicate st.hero_dataframe.length true,
                   filtered_dataframe := st.hero_dataframe,
                   hero_probabilities := p }, none)) := by
  rcases hcat : st.hero_dataframe with _ | ⟨kv, rest⟩
  · left
    refine ⟨rfl, ?_⟩
    unfold reset_filtered_hero_dataframe
    rw [hcat, gpl_nil]
    rfl
  · right
    constructor
    · simp [hcat]
    · refine ⟨softmax (((kv :: rest).map fun kr => preferenceValue kr.2).map
        fun (q : ℚ) => (q : ℝ)), ?_⟩
      unfold reset_filtered_hero_dataframe
      rw [hcat, gpl_cons]

/-- Projections of the reset's returned state, on both the raising and the
non-raising path. -/
theorem reset_proj (st : Manager) :
    (reset_filtered_hero_dataframe st).1.hero_dataframe = st.hero_dataframe ∧
    (reset_filtered_hero_dataframe st).1.mask =
      List.replicate st.hero_dataframe.length true ∧
    (reset_filtered_hero_dataframe st).1.filtered_dataframe = st.hero_dataframe := by
  unfold reset_filtered_hero_dataframe
  rcases h : generate_probability_list st.hero_dataframe with e | p <;>
    exact ⟨rfl, rfl, rfl⟩

theorem generate_filtered_proj (st : Manager) :
    (generate_filtered_hero_dataframe st).1.hero_dataframe = st.hero_dataframe ∧
    (generate_filtered_hero_dataframe st).1.mask = st.mask ∧
    (generate_filtered_hero_dataframe st).1.filtered_dataframe =
      applyMask st.hero_dataframe st.mask := by
  unfold generate_filtered_hero_dataframe
  rcases h : generate_probability_list (applyMask st.hero_dataframe st.mask) with e | p <;>
    exact ⟨rfl, rfl, rfl⟩

/-- Projections of the zero-match branch's returned state: whatever the
prior mask was, the branch ends in the all-eligible state. -/
theorem zero_match_reset_proj (st : Manager) :
    (zero_match_reset st).1.hero_dataframe = st.hero_dataframe ∧
    (zero_match_reset st).1.mask = List.replicate st.hero_dataframe.length true ∧
    (zero_match_reset st).1.filtered_dataframe = st.hero_dataframe := by
  obtain ⟨r1, r2, r3⟩ := reset_proj st
  unfold zero_match_reset
  rcases h : reset_filtered_hero_dataframe st with ⟨st3, _ | e⟩
  · rw [h] at r1 r2 r3
    have hst3 : st3.hero_dataframe = st.hero_dataframe := r1
    obtain ⟨q1, q2, q3⟩ := reset_proj st3
    refine ⟨q1.trans hst3, ?_, q3.trans hst3⟩
    rw [show (callback_clear_masks st3).1.mask =
      List.replicate st3.hero_dataframe.length true from q2, hst3]
  · rw [h] at r1 r2 r3
    exact ⟨r1, r2, r3⟩

/-- The state `callback_generate_masks` returns: the catalog is untouched,
and the final mask and filtered table are `maskResult` / `filteredResult`
of the catalog and the current selections — independent of the mask,
filtered table and probabilities held before the call. -/
theorem callback_generate_masks_char (st : Manager) (sel : List (String × Checkbar)) :
    (callback_generate_masks st sel).1.hero_dataframe = st.hero_dataframe ∧
    (callback_generate_masks st sel).1.mask = maskResult st.hero_dataframe sel ∧
    (callback_generate_masks st sel).1.filtered_dataframe =
      filteredResult st.hero_dataframe sel := by
  rcases reset_cases st with ⟨hnil, hr⟩ | ⟨hne, p, hr⟩
  · unfold callback_generate_masks
    rw [hr, hnil, maskResult_nil, filteredResult_nil]
    exact ⟨rfl, rfl, rfl⟩
  · unfold callback_generate_masks
    rw [hr]
    dsimp only
    by_cases hany : ((sel.foldl (combineStep st.hero_dataframe)
        (List.replicate st.hero_dataframe.length true)).any fun b => b) = true
    · rw [if_pos hany, maskResult_of_any st.hero_dataframe sel hany,
        filteredResult_of_any st.hero_dataframe sel hany]
      exact generate_filtered_proj _
    · rw [if_neg hany, maskResult_of_not_any st.hero_dataframe sel hany,
        filteredResult_of_not_any st.hero_dataframe sel hany]
      exact zero_match_reset_proj _

/-- C1: on the failing input (a catalog with a single strength hero, with
only `agility` checked on the `primary_attribute` axis) the combined mask
selects zero heroes; `callback_generate_masks` does reset the session to
the all-eligible state (mask all-`True`, filtered table equal to the full
catalog) but then returns `None`: no `NoMatchError` — no exception or
notification of any kind — reaches the caller (the `TODO` at line 231
records the missing notification). -/
theorem C1_zero_match_resets_but_signals_nothing :
    (callback_generate_masks C1st C1sel).2 = none ∧
    (callback_generate_masks C1st C1sel).1.mask = [true] ∧
    (callback_generate_masks C1st C1sel).1.filtered_dataframe = C1cat :=
  ⟨rfl, rfl, rfl⟩

/-- C9: filter applications do not accumulate.  `callback_generate_masks`
leaves the catalog untouched; its resulting mask and filtered table agree
for any two states holding the same catalog (so they depend only on the
catalog and the current selections, the leading reset discarding any
previously applied mask); and applying the same selections twice in a row
yields the same mask and filtered table as applying them once. -/
theorem C9_filters_do_not_accumulate (st st2 : Manager)
    (sel : List (String × Checkbar))
    (h : st.hero_dataframe = st2.hero_dataframe) :
    (callback_generate_masks st sel).1.hero_dataframe = st.hero_dataframe ∧
    ((callback_generate_masks st sel).1.mask =
       (callback_generate_masks st2 sel).1.mask ∧
     (callback_generate_masks st sel).1.filtered_dataframe =
       (callback_generate_masks st2 sel).1.filtered_dataframe) ∧
    ((callback_generate_masks (callback_generate_masks st sel).1 sel).1.mask =
       (callback_generate_masks st sel).1.mask ∧
     (callback_generate_masks (callback_generate_masks st sel).1 sel).1.filtered_dataframe =
       (callback_generate_masks st sel).1.filtered_dataframe) := by
  obtain ⟨h1, h2, h3⟩ := callback_generate_masks_char st sel
  obtain ⟨g1, g2, g3⟩ := callback_generate_masks_char st2 sel
  obtain ⟨f1, f2, f3⟩ :=
    callback_generate_masks_char (callback_generate_masks st sel).1 sel
  refine ⟨h1, ⟨?_, ?_⟩, ?_, ?_⟩
  · rw [h2, g2, h]
  · rw [h3, g3, h]
  · rw [f2, h2, h1]
  · rw [f3, h3, h1]

/-- Witness for C9: a state carrying a stale restrictive mask and a fresh
state over the same catalog produce the same mask, and re-applying the
same selections is a no-op on the mask. -/
theorem C9_witness :
    (callback_generate_masks
        { hero_dataframe := C1cat, mask := [false], filtered_dataframe := [],
          hero_probabilities := [] } C1sel).1.mask =
      (callback_generate_masks C1st C1sel).1.mask ∧
    (callback_generate_masks (callback_generate_masks C1st C1sel).1 C1sel).1.mask =
      (callback_generate_masks C1st C1sel).1.mask := by
  obtain ⟨_, ⟨hm, _⟩, _⟩ :=
    C9_filters_do_not_accumulate
      { hero_dataframe := C1cat, mask := [false], filtered_dataframe := [],
        hero_probabilities := [] } C1st C1sel rfl
  obtain ⟨_, _, hi, _⟩ := C9_filters_do_not_accumulate C1st C1st C1sel rfl
  exact ⟨hm, hi⟩

/-- C2: reloading from a malformed preferences source (with the stored,
well-formed configuration source) raises the loader's `JSONDecodeError`
for the preferences file before any field of the manager is assigned: the
prior catalog, mask, filtered table and probability distribution are
returned byte-for-byte unchanged — atomic swap-or-nothing. -/
theorem C2_reload_malformed_is_atomic (st : Manager) (hero_dict : Catalog) :
    callback_open_new_preference_list st (.parsed hero_dict) .malformed =
      (st, some (.jsonDecodeError prefsDecodeMsg)) ∧
    (callback_open_new_preference_list st (.parsed hero_dict) .malformed).1.hero_dataframe =
      st.hero_dataframe ∧
    (callback_open_new_preference_list st (.parsed hero_dict) .malformed).1.mask = st.mask ∧
    (callback_open_new_preference_list st (.parsed hero_dict) .malformed).1.filtered_dataframe =
      st.filtered_dataframe ∧
    (callback_open_new_preference_list st (.parsed hero_dict) .malformed).1.hero_probabilities =
      st.hero_probabilities :=
  ⟨rfl, rfl, rfl, rfl, rfl⟩

/-! Claims about the probability engine (C6, C7, C8). -/

theorem expSum_pos (l : List ℝ) (h : l ≠ []) :
    0 < ((l.map fun x => Real.exp (x - amax l)).sum) := by
  refine List.sum_pos _ ?_ ?_
  · intro x hx
    obtain ⟨y, _, rfl⟩ := List.mem_map.mp hx
    exact Real.exp_pos _
  · simpa using h

theorem length_softmax (l : List ℝ) : (softmax l).length = l.length := by
  simp [softmax]

theorem softmax_getD (l : List ℝ) (i : ℕ) (hi : i < l.length) :
    (softmax l).getD i 0 =
      Real.exp (l.getD i 0 - amax l) /
        ((l.map fun x => Real.exp (x - amax l)).sum) := by
  have h1 : i < (softmax l).length := by rw [length_softmax]; exact hi
  rw [List.getD_eq_getElem _ _ h1, List.getD_eq_getElem _ _ hi]
  simp [softmax, List.getElem_map]

theorem sum_map_div (l : List ℝ) (c : ℝ) :
    (l.map fun x => x / c).sum = l.sum / c := by
  induction l with
  | nil => simp
  | cons x xs ih => simp [ih, add_div]

theorem softmax_sum (l : List ℝ) (h : l ≠ []) : (softmax l).sum = 1 := by
  have hpos := expSum_pos l h
  simp only [softmax]
  rw [sum_map_div, div_self (ne_of_gt hpos)]

theorem softmax_nonneg (l : List ℝ) (h : l ≠ []) : ∀ p ∈ softmax l, 0 ≤ p := by
  intro p hp
  simp only [softmax] at hp
  obtain ⟨y, hy, rfl⟩ := List.mem_map.mp hp
  obtain ⟨x, _, rfl⟩ := List.mem_map.mp hy
  exact div_nonneg (le_of_lt (Real.exp_pos _)) (le_of_lt (expSum_pos l h))

/-- Inversion of a successful probability computation: the subset was
non-empty and the result is the softmax of its (real-cast) preference
scores. -/
theorem gpl_ok_inv (filtered : Catalog) (probs : List ℝ)
    (hok : generate_probability_list filtered = .ok probs) :
    filtered ≠ [] ∧
    probs = softmax ((filtered.map fun kr => preferenceValue kr.2).map
      fun (q : ℚ) => (q : ℝ)) := by
  rcases filtered with _ | ⟨kv, rest⟩
  · rw [gpl_nil] at hok
    exact Except.noConfusion hok
  · rw [gpl_cons] at hok
    exact ⟨List.cons_ne_nil kv rest, (Except.ok.inj hok).symm⟩

/-- C6: the probability distribution computed by
`generate_probability_list` is strictly monotone in the preference score —
within one subset a strictly greater score gets a strictly greater
probability, and equal scores get equal probabilities. -/
theorem C6_distribution_monotone_in_score (filtered : Catalog) (probs : List ℝ)
    (hok : generate_probability_list filtered = .ok probs)
    (i j : ℕ) (hi : i < filtered.length) (hj : j < filtered.length) :
    (preferenceValue (filtered.get ⟨i, hi⟩).2 >
        preferenceValue (filtered.get ⟨j, hj⟩).2 →
      probs.getD i 0 > probs.getD j 0) ∧
    (preferenceValue (filtered.get ⟨i, hi⟩).2 =
        preferenceValue (filtered.get ⟨j, hj⟩).2 →
      probs.getD i 0 = probs.getD j 0) := by
  obtain ⟨hne, hp⟩ := gpl_ok_inv filtered probs hok
  subst hp
  set l : List ℝ :=
    (filtered.map fun kr => preferenceValue kr.2).map fun (q : ℚ) => (q : ℝ) with hl
  have hlen : l.length = filtered.length := by simp [hl]
  have hli : i < l.length := by rw [hlen]; exact hi
  have hlj : j < l.length := by rw [hlen]; exact hj
  have hlne : l ≠ [] := by
    intro h
    rw [h] at hli
    exact absurd hli (by simp)
  have hS := expSum_pos l hlne
  have hvi : l.getD i 0 = ((preferenceValue (filtered.get ⟨i, hi⟩).2 : ℚ) : ℝ) := by
    rw [List.getD_eq_getElem _ _ hli]
    simp [hl, List.getElem_map]
  have hvj : l.getD j 0 = ((preferenceValue (filtered.get ⟨j, hj⟩).2 : ℚ) : ℝ) := by
    rw [List.getD_eq_getElem _ _ hlj]
    simp [hl, List.getElem_map]
  constructor
  · intro hab
    rw [gt_iff_lt, softmax_getD l i hli, softmax_getD l j hlj, hvi, hvj,
      div_lt_div_iff_of_pos_right hS]
    exact Real.exp_lt_exp.mpr (sub_lt_sub_right (by exact_mod_cast hab) _)
  · intro hab
    rw [softmax_getD l i hli, softmax_getD l j hlj, hvi, hvj, hab]

/-- Witness for C6: in a two-hero subset with scores 1 and 0 the first
hero's probability is strictly greater. -/
theorem C6_witness :
    ∃ probs, generate_probability_list W6cat = .ok probs ∧
      probs.getD 0 0 > probs.getD 1 0 := by
  have hok : generate_probability_list W6cat =
      .ok (softmax ((W6cat.map fun kr => preferenceValue kr.2).map
        fun (q : ℚ) => (q : ℝ))) := rfl
  exact ⟨_, hok,
    (C6_distribution_monotone_in_score W6cat _ hok 0 1 (by decide) (by decide)).1
      (by decide)⟩

/-- C7: a successfully computed distribution has one entry per entity of
the subset, no negative entry, and sums to exactly 1 over real
arithmetic. -/
theorem C7_distribution_normalized (filtered : Catalog) (probs : List ℝ)
    (hok : generate_probability_list filtered = .ok probs) :
    probs.length = filtered.length ∧ (∀ p ∈ probs, 0 ≤ p) ∧ probs.sum = 1 := by
  obtain ⟨hne, hp⟩ := gpl_ok_inv filtered probs hok
  subst hp
  have hlne : ((filtered.map fun kr => preferenceValue kr.2).map
      fun (q : ℚ) => (q : ℝ)) ≠ [] := by simpa using hne
  refine ⟨?_, softmax_nonneg _ hlne, softmax_sum _ hlne⟩
  rw [length_softmax]
  simp

/-- Witness for C7 on a concrete two-hero subset. -/
theorem C7_witness :
    ∃ probs, generate_probability_list W6cat = .ok probs ∧
      probs.length = W6cat.length ∧ (∀ p ∈ probs, 0 ≤ p) ∧ probs.sum = 1 := by
  have hok : generate_probability_list W6cat =
      .ok (softmax ((W6cat.map fun kr => preferenceValue kr.2).map
        fun (q : ℚ) => (q : ℝ))) := rfl
  exact ⟨_, hok, C7_distribution_normalized W6cat _ hok⟩

/-- C8 is false as stated: on a zero-entity subset the probability
computation does fail, but with numpy's `ValueError` escaping from
`np.amax` inside `scipy.special.softmax` — there is no `EmptySubsetError`
type anywhere in the code and no defensive emptiness check. -/
theorem C8_no_emptySubsetError_counterexample :
    generate_probability_list [] = .error (.valueError amaxEmptyMsg) ∧
    generate_probability_list [] ≠ .error .emptySubsetError := by
  refine ⟨rfl, fun h => ?_⟩
  rw [gpl_nil] at h
  exact PyError.noConfusion (Except.error.inj h)

/-- C8 amended: when the subset has zero entities,
`generate_probability_list` fails — with the untyped `ValueError` raised
by the empty-array max reduction, not with a dedicated `EmptySubsetError`
— rather than returning a value. -/
theorem C8_amended_empty_subset_raises_valueerror (filtered : Catalog)
    (h : filtered.length = 0) :
    generate_probability_list filtered = .error (.valueError amaxEmptyMsg) := by
  rw [List.length_eq_zero] at h
  subst h
  rfl

/-- Witness for the amended C8 at the empty subset. -/
theorem C8_amended_witness :
    generate_probability_list [] = .error (.valueError amaxEmptyMsg) :=
  C8_amended_empty_subset_raises_valueerror [] rfl

end RandomHeroSelect
